import Mathlib

/-!
# Verification of the mail-dispatch provider-abstraction layer

Shallow embedding, in Lean 4, of the core of the `mail-dispatch` repository:
the template renderer (`src/email_providers/base.py` and the variant shipped
under `src/src/email_providers/base.py`), the four provider variants
(SendGrid, AWS SES, Azure Communication Services, GCP Pub/Sub relay) and the
`EmailService` composition root (`src/src/email_providers/service.py`).

Modelling conventions:
* Python dictionaries with string keys/values become association lists.
* A raised Python exception becomes an `Except` error value of type `PyError`.
* The filesystem and process environment (current working directory, the
  library's own install location) are threaded explicitly through a `World`
  record; `Path.mkdir(parents=True, exist_ok=True)` becomes a pure update of
  the directory set.
* The external SDK clients (boto3, SendGrid, Azure, Pub/Sub) are modelled at
  their call boundary: whether the client constructor succeeded is a `Bool`
  input, and the outcome of the single transport call each `send_email`
  performs is an input of a per-variant outcome type.  `send_email` returns,
  next to its result, the list of payloads actually handed to the transport,
  so "no network call was attempted" is the statement that this list is empty.
* The Jinja2 environment (`autoescape=True`) is modelled by a minimal template
  language: a template is a list of literal-text chunks, variable
  interpolations and render-time-failing constructs; values are HTML-escaped
  exactly as markupsafe's `escape` does.  Template lookup reproduces Jinja2's
  `FileSystemLoader`/`split_template_path` behaviour, which rejects `..`
  segments with `TemplateNotFound` and resolves all remaining names below the
  loader's root directory.
-/

namespace MailDispatch

/-- A flat string-keyed configuration mapping (a Python `dict` restricted to
string values, the only values the code reads).  `get?` is `dict.get`:
`none` when the key is absent. -/
abbrev Config : Type := List (String × String)

def Config.get? (cfg : Config) (k : String) : Option String :=
  List.lookup k cfg

/-- The Python exceptions the embedded code can raise.  `httpException`
carries `status_code` and `detail` of a `fastapi.HTTPException`;
`attributeError`, `valueError` and `typeError` are the built-in exception
classes of the same names (messages are carried without the quote characters
the interpreter prints). -/
inductive PyError where
  | attributeError (msg : String)
  | valueError (msg : String)
  | typeError (msg : String)
  | httpException (status_code : Nat) (detail : String)
  deriving Repr, DecidableEq

instance {ε α : Type} [DecidableEq ε] [DecidableEq α] : DecidableEq (Except ε α) :=
  fun x y =>
    match x, y with
    | .ok a, .ok b =>
      if h : a = b then isTrue (by rw [h]) else isFalse (fun he => by cases he; exact h rfl)
    | .error a, .error b =>
      if h : a = b then isTrue (by rw [h]) else isFalse (fun he => by cases he; exact h rfl)
    | .ok _, .error _ => isFalse (fun he => by cases he)
    | .error _, .ok _ => isFalse (fun he => by cases he)

/-- Python `str.lower()` (character-wise ASCII lowering, which is all the
provider names need); defined character-wise so it computes by kernel
reduction. -/
def strLower (s : String) : String :=
  ⟨s.data.map Char.toLower⟩

/-- An absolute filesystem path, as its list of components. -/
abbrev Path : Type := List String

/-- Join path components with `/` (structurally recursive so it computes by
kernel reduction). -/
def joinSlash : List String → String
  | [] => ""
  | [c] => c
  | c :: rest => c ++ "/" ++ joinSlash rest

/-- Render an absolute path the way `pathlib` prints it. -/
def pathStr (p : Path) : String :=
  "/" ++ joinSlash p

/-- The nonempty ancestors of a path, the path itself included: the
directories `mkdir(parents=True)` guarantees to exist afterwards. -/
def ancestors : Path → List Path
  | ([] : List String) => []
  | (c :: rest : List String) => ([c] : Path) :: (ancestors rest).map (fun q => (c :: q : List String))

/-- Split a character list at every `/` (the splitting both `pathlib` and
Jinja2's `split_template_path` perform); structurally recursive so it
computes by kernel reduction. -/
def splitSlash : List Char → List (List Char)
  | [] => [[]]
  | c :: rest =>
    match splitSlash rest with
    | [] => [[]]
    | cur :: parts => if c = '/' then [] :: cur :: parts else (c :: cur) :: parts

/-- Python `s.split("/")`. -/
def strSplitSlash (s : String) : List String :=
  (splitSlash s.data).map (fun l => ⟨l⟩)

/-- Parse a Python path string into components, dropping empty components and
`.` exactly as `pathlib` normalisation does (`..` is kept literally, as
`pathlib` keeps it). -/
def pathComps (s : String) : List String :=
  (strSplitSlash s).filter (fun c => c != "" && c != ".")

/-- `os.path.isabs` on POSIX. -/
def isAbs (s : String) : Bool :=
  s.startsWith "/"

/-- A `Path(s)` value resolved to an absolute path: absolute strings stand
alone, relative ones are resolved against the directory the process would
resolve them against (the current working directory). -/
def parsePath (cwd : Path) (s : String) : Path :=
  if isAbs s then pathComps s else cwd ++ pathComps s

/-- One node of a (modelled) Jinja2 template: literal text, a `{{ name }}`
interpolation, or a construct whose evaluation raises at render time (the
image of interpolation/syntax failures such as a failing filter). -/
inductive JinjaNode where
  | text (s : String)
  | var (name : String)
  | raising (msg : String)
  deriving Repr, DecidableEq

abbrev JinjaTemplate : Type := List JinjaNode

/-- The data mapping a template is rendered with (values restricted to
strings, which is all the escaping contract needs). -/
abbrev TemplateData : Type := List (String × String)

/-- markupsafe's `escape` on a single character, as the character list of its
replacement: `& < > ' "` become entities, everything else stands. -/
def escapeChar (c : Char) : List Char :=
  if c = '&' then "&amp;".data
  else if c = '<' then "&lt;".data
  else if c = '>' then "&gt;".data
  else if c = Char.ofNat 39 then "&#39;".data
  else if c = Char.ofNat 34 then "&#34;".data
  else [c]

def escapeList : List Char → List Char
  | [] => []
  | c :: rest => escapeChar c ++ escapeList rest

/-- markupsafe's `escape`, applied by Jinja2 to every interpolated value when
`autoescape=True` (which both copies of `base.py` set). -/
def markupsafeEscape (s : String) : String :=
  ⟨escapeList s.data⟩

/-- Evaluate one template node under `autoescape=True`: literal text is
emitted verbatim, interpolated values are escaped (an unbound name renders as
the empty string, Jinja2's default-`Undefined` behaviour), and a failing
construct raises with its message. -/
def renderNode (data : TemplateData) : JinjaNode → Except String String
  | .text s => .ok s
  | .var n => .ok (markupsafeEscape ((List.lookup n data).getD ""))
  | .raising msg => .error msg

/-- `template.render(**data)` for the modelled template language. -/
def jinjaRender (data : TemplateData) : JinjaTemplate → Except String String
  | ([] : List JinjaNode) => .ok ""
  | (n :: rest : List JinjaNode) =>
    match renderNode data n with
    | .error msg => .error msg
    | .ok s =>
      match jinjaRender data rest with
      | .error msg => .error msg
      | .ok s' => .ok (s ++ s')

/-- The filesystem fragment the code observes: the set of existing
directories and the template files (keyed by absolute path, holding their
parsed template). -/
structure FileSystem where
  dirs : List Path
  files : List (Path × JinjaTemplate)
  deriving DecidableEq

/-- Directory existence (`p.exists() and p.is_dir()`); the filesystem root
`/` always exists. -/
def FileSystem.isDir (fs : FileSystem) (p : Path) : Bool :=
  List.isEmpty p || fs.dirs.contains p

/-- `Path.mkdir(parents=True, exist_ok=True)`: afterwards the path and all
its ancestors exist. -/
def FileSystem.mkdirParents (fs : FileSystem) (p : Path) : FileSystem :=
  { fs with dirs := fs.dirs ++ ancestors p }

/-- The ambient process state: current working directory, the install
locations the two copies of `base.py` compute from `__file__`, and the
filesystem. -/
structure World where
  cwd : Path
  /-- `Path(__file__).parent.parent` for `src/email_providers/base.py`. -/
  libRoot : Path
  /-- `Path(__file__).parent.parent.parent.parent` for
  `src/src/email_providers/base.py`. -/
  srcLibRoot : Path
  fs : FileSystem
  deriving DecidableEq

/-- Jinja2's `split_template_path`: split on `/`, drop empty and `.`
segments, and reject the whole name (`TemplateNotFound`) as soon as a segment
equals `..` — the loader-level containment guard. -/
def splitTemplatePath (template : String) : Option (List String) :=
  if (strSplitSlash template).contains ".." then none
  else some ((strSplitSlash template).filter (fun c => c != "" && c != "."))

/-- Jinja2 `FileSystemLoader.get_source` over the modelled filesystem: the
resolved absolute path together with the template found there, or
`.error template` for `TemplateNotFound(template)`. -/
def getSource (fs : FileSystem) (root : Path) (template : String) :
    Except String (Path × JinjaTemplate) :=
  match splitTemplatePath template with
  | none => .error template
  | some pieces =>
    match List.lookup (root ++ pieces : Path) fs.files with
    | some t => .ok ((root ++ pieces : Path), t)
    | none => .error template

/-- The template the loader would serve for a raw template name, if any. -/
def templateSource (fs : FileSystem) (root : Path) (template : String) :
    Option JinjaTemplate :=
  match getSource fs root template with
  | .ok (_, t) => some t
  | .error _ => none

/-- A `TemplateRenderer` object: it owns the root directory its Jinja2
`FileSystemLoader` resolves names under. -/
structure TemplateRenderer where
  template_dir : Path
  deriving DecidableEq

/-- The argument `TemplateRenderer.__init__` receives for `template_dir`:
Python `None`, a `str`, or a `pathlib.Path` value. -/
inductive PyPathArg where
  | none
  | str (s : String)
  | path (p : Path)
  deriving Repr, DecidableEq

/-- `TemplateRenderer.__init__` of `src/email_providers/base.py`.

Faithful to the source line by line:
* a truthy `str` argument is converted with `Path(...)`;
* `None` falls back to `cwd/templates/emails` when that directory exists,
  else to the library-bundled `libRoot/templates/emails` with a warning
  (the returned `Bool` records whether the warning was logged);
* the chosen directory is then created with `mkdir(parents=True,
  exist_ok=True)`;
* an empty-string argument survives both the truthiness-guarded conversion
  and the `is None` test, so `template_dir.mkdir` is reached on a `str` and
  raises `AttributeError`. -/
def TemplateRenderer.init (w : World) (template_dir : PyPathArg) :
    Except PyError (TemplateRenderer × Bool × World) :=
  match
    (match template_dir with
     | .str s => if s == "" then PyPathArg.str s else .path (parsePath w.cwd s)
     | a => a) with
  | .none =>
    if w.fs.isDir (w.cwd ++ (["templates", "emails"] : List String)) then
      .ok (⟨w.cwd ++ (["templates", "emails"] : List String)⟩, false,
        { w with fs := w.fs.mkdirParents (w.cwd ++ (["templates", "emails"] : List String)) })
    else
      .ok (⟨w.libRoot ++ (["templates", "emails"] : List String)⟩, true,
        { w with fs := w.fs.mkdirParents (w.libRoot ++ (["templates", "emails"] : List String)) })
  | .path p => .ok (⟨p⟩, false, { w with fs := w.fs.mkdirParents p })
  | .str _ => .error (.attributeError "str object has no attribute mkdir")

/-- `TemplateRenderer.from_config` of `src/email_providers/base.py`: read
`EMAIL_TEMPLATE_DIR`; a truthy relative value is joined under the current
working directory; the result (or the untouched absent/absolute/empty value)
is handed to `__init__`. -/
def TemplateRenderer.from_config (w : World) (config : Config) :
    Except PyError (TemplateRenderer × Bool × World) :=
  TemplateRenderer.init w
    (match config.get? "EMAIL_TEMPLATE_DIR" with
     | Option.none => .none
     | Option.some s =>
       if s != "" && !isAbs s then .path (w.cwd ++ pathComps s) else .str s)

/-- `TemplateRenderer.render_template` of `src/email_providers/base.py`:
look the file `<name>.html` up under the root and render it;
`jinja2.TemplateNotFound` becomes `HTTPException(404, ...)` naming the
resolved path, any other rendering failure becomes `HTTPException(500,
"Failed to render template: <cause>")`.  The method performs no filesystem
mutation, which the returned (unchanged) `World` makes explicit. -/
def TemplateRenderer.render_template (w : World) (r : TemplateRenderer)
    (template_name : String) (template_data : TemplateData) :
    Except PyError String × World :=
  let res : Except PyError String :=
    match getSource w.fs r.template_dir (template_name ++ ".html") with
    | .error _ =>
      .error (.httpException 404
        ("Template " ++ template_name ++ " not found at "
          ++ pathStr (r.template_dir ++ ([template_name ++ ".html"] : List String))))
    | .ok (_, t) =>
      match jinjaRender template_data t with
      | .ok s => .ok s
      | .error msg => .error (.httpException 500 ("Failed to render template: " ++ msg))
  (res, w)

/-- `TemplateRenderer.__init__` of `src/src/email_providers/base.py` (the
copy the `EmailService` uses).  It has no `str → Path` conversion of its
own: `None` falls back directly to `srcLibRoot/templates/emails`, a `Path`
is used as given, and any `str` argument (only the empty string reaches it
through `from_config`) raises `AttributeError` at `template_dir.mkdir`. -/
def TemplateRendererSrc.init (w : World) (template_dir : PyPathArg) :
    Except PyError (TemplateRenderer × World) :=
  match template_dir with
  | .none =>
    let dir : Path := w.srcLibRoot ++ (["templates", "emails"] : List String)
    .ok (⟨dir⟩, { w with fs := w.fs.mkdirParents dir })
  | .path p => .ok (⟨p⟩, { w with fs := w.fs.mkdirParents p })
  | .str _ => .error (.attributeError "str object has no attribute mkdir")

/-- `TemplateRenderer.from_config` of `src/src/email_providers/base.py`: a
truthy non-`Path` value is converted with `Path(...)` (relative values
therefore resolve against the current working directory at `mkdir` time);
the empty string stays a `str`. -/
def TemplateRendererSrc.from_config (w : World) (config : Config) :
    Except PyError (TemplateRenderer × World) :=
  TemplateRendererSrc.init w
    (match config.get? "EMAIL_TEMPLATE_DIR" with
     | Option.none => .none
     | Option.some s => if s == "" then .str s else .path (parsePath w.cwd s))

/-- `TemplateRenderer.render_template` of `src/src/email_providers/base.py`:
only `jinja2.TemplateNotFound` is caught (as `HTTPException(404, ...)`); any
other rendering failure propagates as the raw exception, modelled as a
`valueError` carrying the cause. -/
def TemplateRendererSrc.render_template (w : World) (r : TemplateRenderer)
    (template_name : String) (template_data : TemplateData) :
    Except PyError String × World :=
  let res : Except PyError String :=
    match getSource w.fs r.template_dir (template_name ++ ".html") with
    | .error _ =>
      .error (.httpException 404 ("Template " ++ template_name ++ " not found"))
    | .ok (_, t) =>
      match jinjaRender template_data t with
      | .ok s => .ok s
      | .error msg => .error (.valueError msg)
  (res, w)

/-- The normalized result record every `send_email` returns:
`{"message_id": ..., "status": ...}`.  `status` is deliberately a plain
string, as in the source, so that the closed-set property is a theorem, not
a typing artefact. -/
structure SendResult where
  message_id : String
  status : String
  deriving Repr, DecidableEq

/-- The `content` entry of an attachment dictionary: Python `bytes` (a byte
list) or `str`. -/
inductive AttachmentContent where
  | bytes (data : List Nat)
  | str (s : String)
  deriving Repr, DecidableEq

/-- An attachment dictionary as the providers read it: each field through
`.get` with its provider-side default when absent. -/
structure Attachment where
  filename : Option String
  content : Option AttachmentContent
  content_type : Option String
  deriving Repr, DecidableEq

/-- Python truthiness of an optional list argument (`if cc_emails:`):
`None` and the empty list are falsy. -/
def truthyList {α : Type} (o : Option (List α)) : Option (List α) :=
  match o with
  | some l => if l.isEmpty then none else some l
  | none => none

/-- Python truthiness of an optional string (`if not subject:`). -/
def truthyStr (o : Option String) : Option String :=
  match o with
  | some s => if s == "" then none else some s
  | none => none

/-- `BaseEmailProvider._get_default_subject` (no variant overrides it). -/
def defaultSubject : String := "Default subject"

/-- The base-64 alphabet character for a 6-bit value. -/
def base64Digit (n : Nat) : Char :=
  "ABCDEFGHIJKLMNOPQRSTUVWXYZabcdefghijklmnopqrstuvwxyz0123456789+/".data.getD n 'A'

/-- `base64.b64encode` on a byte list (standard alphabet, `=`-padded). -/
def base64Encode : List Nat → String
  | [] => ""
  | [b1] =>
    ⟨[base64Digit (b1 / 4), base64Digit (b1 % 4 * 16), '=', '=']⟩
  | [b1, b2] =>
    ⟨[base64Digit (b1 / 4), base64Digit (b1 % 4 * 16 + b2 / 16),
      base64Digit (b2 % 16 * 4), '=']⟩
  | b1 :: b2 :: b3 :: rest =>
    (⟨[base64Digit (b1 / 4), base64Digit (b1 % 4 * 16 + b2 / 16),
       base64Digit (b2 % 16 * 4 + b3 / 64), base64Digit (b3 % 64)]⟩ : String)
      ++ base64Encode rest

/-- The bound `self.template_renderer.render_template` method a provider
calls from `send_template_email` (dynamic dispatch: whichever renderer
instance the provider was constructed with). -/
abbrev RenderFun : Type := String → TemplateData → Except PyError String

/-! ## AWS SES provider (`src/src/email_providers/providers/aws.py`) -/

/-- `AWSEmailProvider` object state: `__init__` stores the sender address
and the boto3 client; `clientInit` records whether the `boto3.client(...)`
call succeeded (on failure the `except` block stores `None`). -/
structure AWSEmailProvider where
  sender_email : String
  clientInit : Bool
  deriving Repr, DecidableEq

/-- `AWSEmailProvider.from_config`: reads `AWS_SENDER_EMAIL` (default `""`);
`AWS_REGION` and the credential keys are consumed only by the client
constructor, whose outcome is the `clientInit` input. -/
def AWSEmailProvider.from_config (config : Config) (clientInit : Bool) :
    AWSEmailProvider :=
  { sender_email := (config.get? "AWS_SENDER_EMAIL").getD "", clientInit }

/-- The `Destination` dictionary of the SES `send_email` call; `cc`/`bcc`
keys are added only when the arguments are truthy. -/
structure AWSDestination where
  ToAddresses : List String
  CcAddresses : Option (List String)
  BccAddresses : Option (List String)
  deriving Repr, DecidableEq

/-- The keyword arguments handed to `client.send_email(**email_params)`. -/
structure AWSEmailParams where
  Source : String
  Destination : AWSDestination
  SubjectData : String
  BodyHtmlData : String
  deriving Repr, DecidableEq

/-- Outcome of the (mocked) SES transport call: a response carrying
`MessageId`, a `botocore` `ClientError`, or another exception. -/
inductive AWSTransport where
  | ok (messageId : String)
  | clientError (code : String) (message : String)
  | exc (msg : String)
  deriving Repr, DecidableEq

/-- `AWSEmailProvider.send_email`: fail fast with `HTTPException(500,
"Email service is not available")` when the client never initialised (no
transport call); otherwise build the SES parameters — attachments are only
warned about, never included — make the one transport call, and normalize:
`MessageId`/`"sent"` on success, `HTTPException(500, ...)` wrapping the
backend message otherwise.  The second component lists the payloads handed
to the transport. -/
def AWSEmailProvider.send_email (p : AWSEmailProvider)
    (to_emails : List String) (subject : String) (html_content : String)
    (cc_emails : Option (List String)) (bcc_emails : Option (List String))
    (attachments : Option (List Attachment)) (transport : AWSTransport) :
    Except PyError SendResult × List AWSEmailParams :=
  if !p.clientInit then
    (.error (.httpException 500 "Email service is not available"), [])
  else
    let email_params : AWSEmailParams :=
      { Source := p.sender_email
        Destination :=
          { ToAddresses := to_emails
            CcAddresses := truthyList cc_emails
            BccAddresses := truthyList bcc_emails }
        SubjectData := subject
        BodyHtmlData := html_content }
    let _ := attachments  -- `if attachments:` only logs a warning
    match transport with
    | .ok messageId => (.ok { message_id := messageId, status := "sent" }, [email_params])
    | .clientError _ message =>
      (.error (.httpException 500 ("Failed to send email: " ++ message)), [email_params])
    | .exc msg =>
      (.error (.httpException 500 ("Failed to send email: " ++ msg)), [email_params])

/-- `AWSEmailProvider.send_template_email`: render first (the renderer's
failure propagates unchanged), substitute the default subject for a falsy
one, then delegate to `send_email` — with no `attachments` argument. -/
def AWSEmailProvider.send_template_email (p : AWSEmailProvider) (render : RenderFun)
    (to_emails : List String) (template_name : String) (template_data : TemplateData)
    (subject : Option String) (cc_emails : Option (List String))
    (bcc_emails : Option (List String)) (transport : AWSTransport) :
    Except PyError SendResult × List AWSEmailParams :=
  match render template_name template_data with
  | .error e => (.error e, [])
  | .ok html_content =>
    let subj := (truthyStr subject).getD defaultSubject
    p.send_email to_emails subj html_content cc_emails bcc_emails none transport

/-! ## Azure provider (`src/src/email_providers/providers/azure.py`) -/

structure AzureEmailProvider where
  connection_string : String
  sender_address : String
  clientInit : Bool
  deriving Repr, DecidableEq

/-- `AzureEmailProvider.from_config`: `AZURE_COMMUNICATION_CONNECTION_STRING`
and `AZURE_SENDER_EMAIL`, both defaulting to `""`. -/
def AzureEmailProvider.from_config (config : Config) (clientInit : Bool) :
    AzureEmailProvider :=
  { connection_string := (config.get? "AZURE_COMMUNICATION_CONNECTION_STRING").getD ""
    sender_address := (config.get? "AZURE_SENDER_EMAIL").getD ""
    clientInit }

/-- The message dictionary handed to `client.begin_send`; `cc`/`bcc`/
`attachments` keys are present only when the arguments are truthy
(attachment dictionaries are forwarded untouched). -/
structure AzureMessage where
  subject : String
  html : String
  /-- the `to` recipients entry (`to` is reserved in Lean) -/
  toAddrs : List String
  cc : Option (List String)
  bcc : Option (List String)
  senderAddress : String
  attachments : Option (List Attachment)
  deriving Repr, DecidableEq

/-- Outcome of `begin_send(...).result()`: a result with `message_id`, or an
exception. -/
inductive AzureTransport where
  | ok (messageId : String)
  | exc (msg : String)
  deriving Repr, DecidableEq

/-- `AzureEmailProvider.send_email`: fail fast when the client never
initialised; otherwise build the message, call the transport once, and
return `"sent"` with the poller result's `message_id`, wrapping any
exception in `HTTPException(500, ...)`. -/
def AzureEmailProvider.send_email (p : AzureEmailProvider)
    (to_emails : List String) (subject : String) (html_content : String)
    (cc_emails : Option (List String)) (bcc_emails : Option (List String))
    (attachments : Option (List Attachment)) (transport : AzureTransport) :
    Except PyError SendResult × List AzureMessage :=
  if !p.clientInit then
    (.error (.httpException 500 "Email service is not available"), [])
  else
    let message : AzureMessage :=
      { subject := subject
        html := html_content
        toAddrs := to_emails
        cc := truthyList cc_emails
        bcc := truthyList bcc_emails
        senderAddress := p.sender_address
        attachments := truthyList attachments }
    match transport with
    | .ok messageId => (.ok { message_id := messageId, status := "sent" }, [message])
    | .exc msg =>
      (.error (.httpException 500 ("Failed to send email: " ++ msg)), [message])

/-- `AzureEmailProvider.send_template_email`: render, default the subject,
delegate to `send_email` without attachments. -/
def AzureEmailProvider.send_template_email (p : AzureEmailProvider) (render : RenderFun)
    (to_emails : List String) (template_name : String) (template_data : TemplateData)
    (subject : Option String) (cc_emails : Option (List String))
    (bcc_emails : Option (List String)) (transport : AzureTransport) :
    Except PyError SendResult × List AzureMessage :=
  match render template_name template_data with
  | .error e => (.error e, [])
  | .ok html_content =>
    let subj := (truthyStr subject).getD defaultSubject
    p.send_email to_emails subj html_content cc_emails bcc_emails none transport

/-! ## SendGrid provider (`src/src/email_providers/providers/sendgrid.py`) -/

structure SendGridEmailProvider where
  api_key : String
  sender_email : String
  clientInit : Bool
  deriving Repr, DecidableEq

/-- `SendGridEmailProvider.from_config`: `EMAIL_SENDGRID_API_KEY` and
`EMAIL_DEFAULT_FROM_EMAIL`, both defaulting to `""`. -/
def SendGridEmailProvider.from_config (config : Config) (clientInit : Bool) :
    SendGridEmailProvider :=
  { api_key := (config.get? "EMAIL_SENDGRID_API_KEY").getD ""
    sender_email := (config.get? "EMAIL_DEFAULT_FROM_EMAIL").getD ""
    clientInit }

/-- A SendGrid `Attachment` as the code fills it in. -/
structure SGAttachment where
  file_content : String
  file_name : String
  file_type : String
  disposition : String
  deriving Repr, DecidableEq

/-- The `Mail` object handed to `client.send` (cc/bcc loops run only on
truthy arguments, so their net effect is the argument list or `[]`). -/
structure SGMail where
  from_email : String
  subject : String
  to_emails : List String
  html_content : String
  ccs : List String
  bccs : List String
  attachments : List SGAttachment
  deriving Repr, DecidableEq

/-- Build one SendGrid attachment: `b64encode` accepts only bytes — a `str`
content raises `TypeError`, which the surrounding `except Exception` turns
into an `HTTPException(500, ...)`. -/
def buildSGAttachment (a : Attachment) : Except PyError SGAttachment :=
  match a.content.getD (.bytes []) with
  | .bytes d =>
    .ok { file_content := base64Encode d
          file_name := a.filename.getD "attachment.txt"
          file_type := a.content_type.getD "text/plain"
          disposition := "attachment" }
  | .str _ => .error (.typeError "a bytes-like object is required, not str")

def buildSGAttachments : List Attachment → Except PyError (List SGAttachment)
  | [] => .ok []
  | a :: rest =>
    match buildSGAttachment a with
    | .error e => .error e
    | .ok sga =>
      match buildSGAttachments rest with
      | .error e => .error e
      | .ok l => .ok (sga :: l)

/-- Outcome of `client.send(mail)`: a response object exposing
`status_code` and the `X-Message-Id` header, a `python_http_client`
`HTTPError`, or another exception. -/
inductive SGTransport where
  | response (status_code : Nat) (xMessageId : Option String)
  | httpError (msg : String)
  | exc (msg : String)
  deriving Repr, DecidableEq

/-- `SendGridEmailProvider.send_email`: fail fast when the client never
initialised; build the mail (a `str` attachment content raises inside the
`try` and surfaces as `HTTPException(500, ...)` before any transport call);
then send once and normalize: the `X-Message-Id` header (default
`"unknown"`) with status `"sent"` for a 2xx `status_code` and `"failed"`
otherwise; exceptions become `HTTPException(500, ...)`. -/
def SendGridEmailProvider.send_email (p : SendGridEmailProvider)
    (to_emails : List String) (subject : String) (html_content : String)
    (cc_emails : Option (List String)) (bcc_emails : Option (List String))
    (attachments : Option (List Attachment)) (transport : SGTransport) :
    Except PyError SendResult × List SGMail :=
  if !p.clientInit then
    (.error (.httpException 500 "Email service is not available"), [])
  else
    let attachRes : Except PyError (List SGAttachment) :=
      match truthyList attachments with
      | none => .ok []
      | some l => buildSGAttachments l
    match attachRes with
    | .error (.typeError m) =>
      (.error (.httpException 500 ("Failed to send email: " ++ m)), [])
    | .error e => (.error e, [])
    | .ok atts =>
      let mail : SGMail :=
        { from_email := p.sender_email
          subject := subject
          to_emails := to_emails
          html_content := html_content
          ccs := cc_emails.getD []
          bccs := bcc_emails.getD []
          attachments := atts }
      match transport with
      | .response status_code xMessageId =>
        (.ok { message_id := xMessageId.getD "unknown"
               status := if 200 ≤ status_code && status_code < 300 then "sent" else "failed" },
         [mail])
      | .httpError msg =>
        (.error (.httpException 500 ("Failed to send email: " ++ msg)), [mail])
      | .exc msg =>
        (.error (.httpException 500 ("Failed to send email: " ++ msg)), [mail])

/-- `SendGridEmailProvider.send_template_email`: render, default the
subject, delegate to `send_email` without attachments. -/
def SendGridEmailProvider.send_template_email (p : SendGridEmailProvider) (render : RenderFun)
    (to_emails : List String) (template_name : String) (template_data : TemplateData)
    (subject : Option String) (cc_emails : Option (List String))
    (bcc_emails : Option (List String)) (transport : SGTransport) :
    Except PyError SendResult × List SGMail :=
  match render template_name template_data with
  | .error e => (.error e, [])
  | .ok html_content =>
    let subj := (truthyStr subject).getD defaultSubject
    p.send_email to_emails subj html_content cc_emails bcc_emails none transport

/-! ## GCP Pub/Sub relay provider (`src/email_providers/providers/gcp.py`) -/

structure GCPEmailProvider where
  project_id : String
  topic_name : String
  sender_email : String
  topic_path : String
  publisherInit : Bool
  deriving Repr, DecidableEq

/-- `GCPEmailProvider.__init__`: stores the identifiers, computes
`topic_path`, and records whether the `PublisherClient` construction
succeeded. -/
def GCPEmailProvider.init (project_id topic_name sender_email : String)
    (publisherInit : Bool) : GCPEmailProvider :=
  { project_id, topic_name, sender_email
    topic_path := "projects/" ++ project_id ++ "/topics/" ++ topic_name
    publisherInit }

/-- `GCPEmailProvider.from_config`: `GCP_PROJECT_ID`,
`GCP_PUBSUB_EMAIL_TOPIC` and `EMAIL_DEFAULT_FROM_EMAIL`, defaulting to
`""`; `GCP_SERVICE_ACCOUNT_JSON` only selects the client constructor. -/
def GCPEmailProvider.from_config (config : Config) (publisherInit : Bool) :
    GCPEmailProvider :=
  GCPEmailProvider.init
    ((config.get? "GCP_PROJECT_ID").getD "")
    ((config.get? "GCP_PUBSUB_EMAIL_TOPIC").getD "")
    ((config.get? "EMAIL_DEFAULT_FROM_EMAIL").getD "")
    publisherInit

/-- An attachment as serialized into the published JSON message: bytes
content is base-64-encoded, `str` content is kept as-is, and the
`is_base64` marker is set unconditionally. -/
structure SerializedAttachment where
  filename : String
  content : String
  content_type : String
  is_base64 : Bool
  deriving Repr, DecidableEq

def serializeAttachment (a : Attachment) : SerializedAttachment :=
  { filename := a.filename.getD "attachment.txt"
    content :=
      match a.content.getD (.bytes []) with
      | .bytes d => base64Encode d
      | .str s => s
    content_type := a.content_type.getD "text/plain"
    is_base64 := true }

/-- The email-message dictionary the provider JSON-serializes and publishes
(`from` is spelled `fromAddr` here because `from` is reserved in Lean). -/
structure GCPEmailMessage where
  fromAddr : String
  /-- the `to` recipients entry (`to` is reserved in Lean) -/
  toAddrs : List String
  subject : String
  html_content : String
  cc : Option (List String)
  bcc : Option (List String)
  attachments : Option (List SerializedAttachment)
  deriving Repr, DecidableEq

/-- Outcome of `publisher.publish(...).result()`: the published message id,
or an exception. -/
inductive GCPTransport where
  | ok (messageId : String)
  | exc (msg : String)
  deriving Repr, DecidableEq

/-- `GCPEmailProvider.send_email`: fail fast when the publisher never
initialised; otherwise build the message — truthy attachments are
serialized (base-64 for bytes) and *included* — publish once to
`topic_path`, and return the future's message id with status
`"published"`; exceptions become `HTTPException(500, ...)`. -/
def GCPEmailProvider.send_email (p : GCPEmailProvider)
    (to_emails : List String) (subject : String) (html_content : String)
    (cc_emails : Option (List String)) (bcc_emails : Option (List String))
    (attachments : Option (List Attachment)) (transport : GCPTransport) :
    Except PyError SendResult × List (String × GCPEmailMessage) :=
  if !p.publisherInit then
    (.error (.httpException 500 "Email service is not available"), [])
  else
    let email_message : GCPEmailMessage :=
      { fromAddr := p.sender_email
        toAddrs := to_emails
        subject := subject
        html_content := html_content
        cc := truthyList cc_emails
        bcc := truthyList bcc_emails
        attachments := (truthyList attachments).map (fun l => l.map serializeAttachment) }
    match transport with
    | .ok messageId =>
      (.ok { message_id := messageId, status := "published" }, [(p.topic_path, email_message)])
    | .exc msg =>
      (.error (.httpException 500 ("Failed to send email: " ++ msg)), [(p.topic_path, email_message)])

/-- `GCPEmailProvider.send_template_email`: render, default the subject,
delegate to `send_email` without attachments. -/
def GCPEmailProvider.send_template_email (p : GCPEmailProvider) (render : RenderFun)
    (to_emails : List String) (template_name : String) (template_data : TemplateData)
    (subject : Option String) (cc_emails : Option (List String))
    (bcc_emails : Option (List String)) (transport : GCPTransport) :
    Except PyError SendResult × List (String × GCPEmailMessage) :=
  match render template_name template_data with
  | .error e => (.error e, [])
  | .ok html_content =>
    let subj := (truthyStr subject).getD defaultSubject
    p.send_email to_emails subj html_content cc_emails bcc_emails none transport

/-! ## EmailService (`src/src/email_providers/service.py`) -/

/-- The active provider instance: one variant per registry entry. -/
inductive ProviderInstance where
  | azure (p : AzureEmailProvider)
  | sendgrid (p : SendGridEmailProvider)
  | aws (p : AWSEmailProvider)
  | gcp (p : GCPEmailProvider)
  deriving Repr, DecidableEq

/-- The tag naming the variant an instance belongs to (the Python
`type(provider)` / registry key). -/
def ProviderInstance.variantName : ProviderInstance → String
  | .azure _ => "azure"
  | .sendgrid _ => "sendgrid"
  | .aws _ => "aws"
  | .gcp _ => "gcp"

/-- The keys of the provider registry
(`src/src/email_providers/providers/__init__.py`). -/
def providerNames : List String := ["azure", "sendgrid", "aws", "gcp"]

/-- The external outcomes of the four SDK client constructors (one per
variant): `true` when `boto3.client` / `SendGridAPIClient` /
`EmailClient.from_connection_string` / `PublisherClient` succeeds. -/
structure TransportInits where
  azureOk : Bool
  sendgridOk : Bool
  awsOk : Bool
  gcpOk : Bool
  deriving Repr, DecidableEq

/-- The registry lookup `self.PROVIDERS[provider_name]` fused with the
subsequent `provider_class.from_config(...)` call: `some` exactly on the
four registered keys, `none` otherwise (the `provider_name not in
self.PROVIDERS` branch). -/
def lookupProvider (name : String) (inits : TransportInits) (config : Config) :
    Option ProviderInstance :=
  if name = "azure" then some (.azure (AzureEmailProvider.from_config config inits.azureOk))
  else if name = "sendgrid" then
    some (.sendgrid (SendGridEmailProvider.from_config config inits.sendgridOk))
  else if name = "aws" then some (.aws (AWSEmailProvider.from_config config inits.awsOk))
  else if name = "gcp" then some (.gcp (GCPEmailProvider.from_config config inits.gcpOk))
  else none

structure EmailService where
  template_renderer : TemplateRenderer
  provider : ProviderInstance
  deriving DecidableEq

/-- `EmailService.get_provider`. -/
def EmailService.get_provider (svc : EmailService) : ProviderInstance :=
  svc.provider

/-- `EmailService.__init__`, statement by statement:
1. `self.template_renderer = TemplateRenderer.from_config(config)` — the
   `src/src` renderer; its failure (only possible for an empty
   `EMAIL_TEMPLATE_DIR` value) propagates;
2. `provider_name = config.get("EMAIL_PROVIDER").lower()` — an absent key
   makes `.lower()` raise `AttributeError` on `None`;
3. the registry test: an unregistered name raises
   `ValueError("Invalid email provider <name>")`;
4. `provider_class.from_config(...)` builds the one provider instance. -/
def EmailService.init (w : World) (inits : TransportInits) (config : Config) :
    Except PyError (EmailService × World) :=
  match TemplateRendererSrc.from_config w config with
  | .error e => .error e
  | .ok (template_renderer, w') =>
    match config.get? "EMAIL_PROVIDER" with
    | none => .error (.attributeError "NoneType object has no attribute lower")
    | some v =>
      match lookupProvider (strLower v) inits config with
      | none => .error (.valueError ("Invalid email provider " ++ strLower v))
      | some provider => .ok ({ template_renderer, provider }, w')

/-! ## Concrete fixtures used by witnesses and counterexamples -/

/-- A small template: `Hello {{recipient_name}}`. -/
def helloTemplate : JinjaTemplate :=
  [JinjaNode.text "Hello ", JinjaNode.var "recipient_name"]

/-- A concrete world: empty cwd-side template directory; one template file
`test.html` installed under `/app/templates/emails`. -/
def w₀ : World :=
  { cwd := ["app"]
    libRoot := ["usr", "lib", "mail"]
    srcLibRoot := ["repo"]
    fs :=
      { dirs := [["app"], ["app", "templates"], ["app", "templates", "emails"]]
        files := [((["app", "templates", "emails", "test.html"] : Path), helloTemplate)] } }

/-- The renderer rooted at `w₀`'s template directory. -/
def r₀ : TemplateRenderer := ⟨["app", "templates", "emails"]⟩

/-- All four SDK constructors succeed. -/
def initsOk : TransportInits :=
  { azureOk := true, sendgridOk := true, awsOk := true, gcpOk := true }

/-! ## Helper lemmas -/

/-- Substring occurrence: `sub` occurs contiguously inside `s`. -/
def SubstrOccurs (sub s : String) : Prop :=
  ∃ a b : String, s = a ++ sub ++ b

theorem escapeChar_no_lt (c : Char) : '<' ∉ escapeChar c := by
  unfold escapeChar
  split
  · decide
  · split
    · decide
    · split
      · decide
      · split
        · decide
        · split
          · decide
          · rename_i h1 h2 h3 h4 h5
            simp only [List.mem_singleton]
            intro hc
            exact h2 hc.symm

theorem escapeList_no_lt (l : List Char) : '<' ∉ escapeList l := by
  induction l with
  | nil => simp [escapeList]
  | cons c rest ih =>
    simp only [escapeList, List.mem_append]
    rintro (h | h)
    · exact escapeChar_no_lt c h
    · exact ih h

theorem markupsafeEscape_no_lt (s : String) : '<' ∉ (markupsafeEscape s).data :=
  escapeList_no_lt s.data

/-- Rendering a template whose literal chunks contain no `<` produces output
containing no `<` at all: every other character source is an escaped value. -/
theorem jinjaRender_no_lt (data : TemplateData) :
    ∀ (t : JinjaTemplate) (out : String),
      (∀ s, JinjaNode.text s ∈ t → '<' ∉ s.data) →
      jinjaRender data t = .ok out → '<' ∉ out.data := by
  intro t
  induction t with
  | nil =>
    intro out _ hr
    simp only [jinjaRender] at hr
    cases hr
    decide
  | cons n rest ih =>
    intro out h hr
    simp only [jinjaRender] at hr
    cases n with
    | text s =>
      simp only [renderNode] at hr
      cases hrest : jinjaRender data rest with
      | error msg => rw [hrest] at hr; cases hr
      | ok s' =>
        rw [hrest] at hr
        cases hr
        rw [String.data_append]
        simp only [List.mem_append]
        rintro (hc | hc)
        · exact h s (List.mem_cons_self _ _) hc
        · exact ih s' (fun u hu => h u (List.mem_cons_of_mem _ hu)) hrest hc
    | var name =>
      simp only [renderNode] at hr
      cases hrest : jinjaRender data rest with
      | error msg => rw [hrest] at hr; cases hr
      | ok s' =>
        rw [hrest] at hr
        cases hr
        rw [String.data_append]
        simp only [List.mem_append]
        rintro (hc | hc)
        · exact markupsafeEscape_no_lt _ hc
        · exact ih s' (fun u hu => h u (List.mem_cons_of_mem _ hu)) hrest hc
    | raising msg =>
      simp only [renderNode] at hr
      cases hr

/-- A `<script>` occurrence in particular forces a `<` character. -/
theorem substr_script_has_lt (s : String) (h : SubstrOccurs "<script>" s) :
    '<' ∈ s.data := by
  obtain ⟨a, b, hab⟩ := h
  subst hab
  rw [String.data_append, String.data_append]
  simp only [List.mem_append]
  left; right
  decide

theorem mem_ancestors_self (p : Path) (h : p ≠ []) : p ∈ ancestors p := by
  induction p with
  | nil => exact absurd rfl h
  | cons c rest ih =>
    by_cases hr : rest = []
    · subst hr; simp [ancestors]
    · have hm : rest ∈ ancestors rest := ih hr
      simp only [ancestors, List.mem_cons, List.mem_map]
      right
      exact ⟨rest, hm, rfl⟩

theorem isDir_mkdirParents_of_mem (fs : FileSystem) (p q : Path)
    (h : q ∈ ancestors p) : (fs.mkdirParents p).isDir q = true := by
  have hm : q ∈ fs.dirs ++ ancestors p := List.mem_append.mpr (Or.inr h)
  simp only [FileSystem.mkdirParents, FileSystem.isDir, Bool.or_eq_true]
  right
  simpa using hm

theorem isDir_mkdirParents_self (fs : FileSystem) (p : Path) :
    (fs.mkdirParents p).isDir p = true := by
  by_cases hp : p = []
  · subst hp; simp [FileSystem.isDir, FileSystem.mkdirParents]
  · exact isDir_mkdirParents_of_mem fs p p (mem_ancestors_self p hp)

/-- The `src/src` renderer construction succeeds whenever the configured
`EMAIL_TEMPLATE_DIR` value, if present, is non-empty. -/
theorem srcFromConfig_ok (w : World) (config : Config)
    (htd : config.get? "EMAIL_TEMPLATE_DIR" ≠ some "") :
    ∃ tr w', TemplateRendererSrc.from_config w config = .ok (tr, w') := by
  unfold TemplateRendererSrc.from_config
  cases h : config.get? "EMAIL_TEMPLATE_DIR" with
  | none => exact ⟨_, _, rfl⟩
  | some s =>
    have hsne : s ≠ "" := fun he => htd (by rw [he] at h; exact h)
    simp only [beq_iff_eq, if_neg hsne, TemplateRendererSrc.init]
    exact ⟨_, _, rfl⟩

theorem lookupProvider_eq_none_iff (name : String) (inits : TransportInits)
    (config : Config) :
    lookupProvider name inits config = none ↔ name ∉ providerNames := by
  unfold lookupProvider providerNames
  constructor
  · intro h hmem
    simp only [List.mem_cons, List.not_mem_nil, or_false] at hmem
    rcases hmem with h1 | h1 | h1 | h1 <;> simp [h1] at h
  · intro hmem
    simp only [List.mem_cons, List.not_mem_nil, or_false, not_or] at hmem
    obtain ⟨h1, h2, h3, h4⟩ := hmem
    simp [h1, h2, h3, h4]

/-! ## Claim C5 -/

/-- C5: for every template name with no matching file under the root
directory, `render_template` fails with `TemplateNotFound`
(`HTTPException(404, ...)`) and creates no file (the world is returned
unchanged); for every existing template whose interpolation or syntax
fails, it fails with `RenderError` (`HTTPException(500, ...)`) wrapping
the original cause. -/
theorem C5_render_errors (w : World) (r : TemplateRenderer) (name : String)
    (data : TemplateData) :
    (templateSource w.fs r.template_dir (name ++ ".html") = none →
      TemplateRenderer.render_template w r name data =
        (.error (.httpException 404 ("Template " ++ name ++ " not found at "
          ++ pathStr (r.template_dir ++ ([name ++ ".html"] : List String)))), w)) ∧
    (∀ t msg, templateSource w.fs r.template_dir (name ++ ".html") = some t →
      jinjaRender data t = .error msg →
      TemplateRenderer.render_template w r name data =
        (.error (.httpException 500 ("Failed to render template: " ++ msg)), w)) := by
  constructor
  · intro hnone
    cases hg : getSource w.fs r.template_dir (name ++ ".html") with
    | error e => simp only [TemplateRenderer.render_template, hg]
    | ok pt =>
      obtain ⟨p, t⟩ := pt
      simp only [templateSource, hg] at hnone
      exact Option.noConfusion hnone
  · intro t msg hsome hrender
    cases hg : getSource w.fs r.template_dir (name ++ ".html") with
    | error e =>
      simp only [templateSource, hg] at hsome
      exact Option.noConfusion hsome
    | ok pt =>
      obtain ⟨p, t'⟩ := pt
      simp only [templateSource, hg, Option.some.injEq] at hsome
      subst hsome
      simp only [TemplateRenderer.render_template, hg, hrender]

/-- Witness for C5: the missing template name `missing` yields the 404
failure and leaves the world unchanged. -/
theorem C5_witness :
    templateSource w₀.fs r₀.template_dir ("missing" ++ ".html") = none ∧
    TemplateRenderer.render_template w₀ r₀ "missing" [] =
      (.error (.httpException 404 ("Template " ++ "missing" ++ " not found at "
        ++ pathStr (r₀.template_dir ++ (["missing" ++ ".html"] : List String)))), w₀) :=
  ⟨by decide, (C5_render_errors w₀ r₀ "missing" []).1 (by decide)⟩

/-! ## Claim C6 -/

/-- C6: rendering HTML-escapes all interpolated values by default: whenever
the template's own literal text contains no `<`, the rendered output
contains no `<script>` occurrence, whatever the data binds (in particular
when a bound value contains `<script>`); and plain values appear literally
(`Hello John Doe`), while a `<script>`-carrying value renders in escaped
form. -/
theorem C6_autoescape :
    (∀ (t : JinjaTemplate) (data : TemplateData) (out : String),
      (∀ s, JinjaNode.text s ∈ t → '<' ∉ s.data) →
      jinjaRender data t = .ok out →
      ¬ SubstrOccurs "<script>" out) ∧
    (TemplateRenderer.render_template w₀ r₀ "test"
      [("recipient_name", "John Doe"), ("message", "hi")]).1 = .ok "Hello John Doe" ∧
    (TemplateRenderer.render_template w₀ r₀ "test"
      [("recipient_name", "<script>alert(1)</script>")]).1 =
        .ok "Hello &lt;script&gt;alert(1)&lt;/script&gt;" := by
  refine ⟨?_, by decide, by decide⟩
  intro t data out h hr hocc
  exact jinjaRender_no_lt data t out h hr (substr_script_has_lt out hocc)

/-- Witness for C6: the concrete `Hello {{recipient_name}}` template with a
`<script>`-carrying binding renders without any `<script>` occurrence. -/
theorem C6_witness :
    ¬ SubstrOccurs "<script>" "Hello &lt;script&gt;alert(1)&lt;/script&gt;" :=
  C6_autoescape.1 helloTemplate [("recipient_name", "<script>alert(1)</script>")]
    "Hello &lt;script&gt;alert(1)&lt;/script&gt;"
    (by
      intro s hs
      simp only [helloTemplate, List.mem_cons, List.not_mem_nil, or_false] at hs
      rcases hs with hs | hs
      · injection hs with h; subst h; decide
      · exact JinjaNode.noConfusion hs)
    (by decide)

/-! ## Claim C9 -/

/-- C9: template lookup stays inside the configured root: a name whose
`.html`-suffixed form contains a `..` segment is rejected with the 404
failure (it never resolves), and every successfully resolved template path
is the root directory extended by `..`-free segments. -/
theorem C9_containment (w : World) (r : TemplateRenderer) (name : String)
    (data : TemplateData) :
    (splitTemplatePath (name ++ ".html") = none →
      TemplateRenderer.render_template w r name data =
        (.error (.httpException 404 ("Template " ++ name ++ " not found at "
          ++ pathStr (r.template_dir ++ ([name ++ ".html"] : List String)))), w)) ∧
    (∀ p t, getSource w.fs r.template_dir (name ++ ".html") = .ok (p, t) →
      ∃ rest, p = r.template_dir ++ rest ∧ ".." ∉ rest) := by
  constructor
  · intro hsplit
    have hg : getSource w.fs r.template_dir (name ++ ".html") =
        .error (name ++ ".html") := by
      unfold getSource; rw [hsplit]
    simp only [TemplateRenderer.render_template, hg]
  · intro p t hg
    unfold getSource at hg
    cases hs : splitTemplatePath (name ++ ".html") with
    | none => rw [hs] at hg; cases hg
    | some pieces =>
      simp only [hs] at hg
      cases hl : List.lookup (r.template_dir ++ pieces) w.fs.files with
      | none =>
        simp only [hl] at hg
        exact Except.noConfusion hg
      | some tt =>
        simp only [hl, Except.ok.injEq, Prod.mk.injEq] at hg
        obtain ⟨hp, _⟩ := hg
        refine ⟨pieces, hp.symm, ?_⟩
        unfold splitTemplatePath at hs
        cases hc : (strSplitSlash (name ++ ".html")).contains ".." with
        | true => rw [hc] at hs; simp at hs
        | false =>
          rw [hc] at hs
          simp only [Bool.false_eq_true, if_false, Option.some.injEq] at hs
          subst hs
          intro hmem
          have hmem' : (".." : String) ∈ strSplitSlash (name ++ ".html") :=
            List.mem_of_mem_filter hmem
          have hnot : (".." : String) ∉ strSplitSlash (name ++ ".html") := by
            simpa using hc
          exact hnot hmem'

/-- Witness for C9: the traversal name `../../etc/passwd` is rejected with
the 404 failure. -/
theorem C9_witness :
    TemplateRenderer.render_template w₀ r₀ "../../etc/passwd" [] =
      (.error (.httpException 404 ("Template " ++ "../../etc/passwd" ++ " not found at "
        ++ pathStr (r₀.template_dir ++ (["../../etc/passwd" ++ ".html"] : List String)))), w₀) :=
  (C9_containment w₀ r₀ "../../etc/passwd" []).1 (by decide)

/-! ## Claim C7 -/

/-- C7 counterexample: with `EMAIL_TEMPLATE_DIR` present but empty,
`TemplateRenderer.from_config` raises `AttributeError` (the empty string
survives the truthiness-guarded `Path(...)` conversion and the `is None`
test, so `"".mkdir` is reached), refuting the claim's "never raises". -/
theorem C7_counterexample :
    TemplateRenderer.from_config w₀ ([("EMAIL_TEMPLATE_DIR", "")] : Config) =
      .error (.attributeError "str object has no attribute mkdir") := by
  decide

/-- C7 (amended): provided the configured `EMAIL_TEMPLATE_DIR` value, when
present, is non-empty, `from_config` never raises and resolves the root in
this exact order — the configured value (relative paths against the current
working directory), else the well-known `cwd/templates/emails` when that
directory exists, else the library-bundled default with the diagnostic
warning — and the chosen root and all its ancestors are created as an
initialization side effect. -/
theorem C7_amended (w : World) (config : Config)
    (htd : config.get? "EMAIL_TEMPLATE_DIR" ≠ some "") :
    ∃ r warned w', TemplateRenderer.from_config w config = .ok (r, warned, w') ∧
      (∀ s, config.get? "EMAIL_TEMPLATE_DIR" = some s →
        r.template_dir = parsePath w.cwd s ∧ warned = false) ∧
      (config.get? "EMAIL_TEMPLATE_DIR" = none →
        ((w.fs.isDir (w.cwd ++ (["templates", "emails"] : List String)) = true →
          r.template_dir = w.cwd ++ (["templates", "emails"] : List String) ∧
            warned = false) ∧
         (w.fs.isDir (w.cwd ++ (["templates", "emails"] : List String)) = false →
          r.template_dir = w.libRoot ++ (["templates", "emails"] : List String) ∧
            warned = true))) ∧
      w'.fs.isDir r.template_dir = true ∧
      (∀ q, q ∈ ancestors r.template_dir → w'.fs.isDir q = true) := by
  cases h : config.get? "EMAIL_TEMPLATE_DIR" with
  | none =>
    cases hd : w.fs.isDir (w.cwd ++ (["templates", "emails"] : List String)) with
    | true =>
      refine ⟨⟨w.cwd ++ (["templates", "emails"] : List String)⟩, false,
        { w with fs := w.fs.mkdirParents (w.cwd ++ (["templates", "emails"] : List String)) },
        ?_, ?_, ?_, ?_, ?_⟩
      · simp [TemplateRenderer.from_config, h, TemplateRenderer.init, hd]
      · intro s hs; exact Option.noConfusion hs
      · intro _
        exact ⟨fun _ => ⟨rfl, rfl⟩, fun hf => Bool.noConfusion hf⟩
      · exact isDir_mkdirParents_self _ _
      · intro q hq; exact isDir_mkdirParents_of_mem _ _ _ hq
    | false =>
      refine ⟨⟨w.libRoot ++ (["templates", "emails"] : List String)⟩, true,
        { w with fs := w.fs.mkdirParents (w.libRoot ++ (["templates", "emails"] : List String)) },
        ?_, ?_, ?_, ?_, ?_⟩
      · simp [TemplateRenderer.from_config, h, TemplateRenderer.init, hd]
      · intro s hs; exact Option.noConfusion hs
      · intro _
        exact ⟨fun ht => Bool.noConfusion ht, fun _ => ⟨rfl, rfl⟩⟩
      · exact isDir_mkdirParents_self _ _
      · intro q hq; exact isDir_mkdirParents_of_mem _ _ _ hq
  | some s =>
    have hsne : s ≠ "" := fun he => htd (by rw [he] at h; exact h)
    cases ha : isAbs s with
    | true =>
      refine ⟨⟨parsePath w.cwd s⟩, false,
        { w with fs := w.fs.mkdirParents (parsePath w.cwd s) }, ?_, ?_, ?_, ?_, ?_⟩
      · simp [TemplateRenderer.from_config, h, ha, TemplateRenderer.init, hsne]
      · intro s' hs'; injection hs' with he; subst he; exact ⟨rfl, rfl⟩
      · intro hn; exact Option.noConfusion hn
      · exact isDir_mkdirParents_self _ _
      · intro q hq; exact isDir_mkdirParents_of_mem _ _ _ hq
    | false =>
      have hpp : parsePath w.cwd s = w.cwd ++ pathComps s := by
        unfold parsePath; rw [ha]; simp
      refine ⟨⟨w.cwd ++ pathComps s⟩, false,
        { w with fs := w.fs.mkdirParents (w.cwd ++ pathComps s) }, ?_, ?_, ?_, ?_, ?_⟩
      · simp [TemplateRenderer.from_config, h, ha, hsne, TemplateRenderer.init]
      · intro s' hs'; injection hs' with he; subst he
        exact ⟨hpp.symm, rfl⟩
      · intro hn; exact Option.noConfusion hn
      · exact isDir_mkdirParents_self _ _
      · intro q hq; exact isDir_mkdirParents_of_mem _ _ _ hq

/-- Witness for C7 (amended): at a concrete world and the empty
configuration the construction succeeds. -/
theorem C7_amended_witness :
    ∃ r warned w', TemplateRenderer.from_config w₀ ([] : Config) = .ok (r, warned, w') := by
  obtain ⟨r, warned, w', hok, -, -, -, -⟩ := C7_amended w₀ ([] : Config) (by decide)
  exact ⟨r, warned, w', hok⟩

/-! ## Claim C1 -/

def cfgC1 : Config := [("EMAIL_PROVIDER", "not-a-real-provider"), ("EMAIL_TEMPLATE_DIR", "")]

/-- C1 counterexample: a configuration whose `EMAIL_PROVIDER` value is
unregistered but whose `EMAIL_TEMPLATE_DIR` is the empty string makes
construction raise `AttributeError` in renderer construction — not the
`ValueError` (`UnknownProvider`) the claim requires for every such
configuration. -/
theorem C1_counterexample :
    EmailService.init w₀ initsOk cfgC1 =
      .error (.attributeError "str object has no attribute mkdir") ∧
    PyError.attributeError "str object has no attribute mkdir" ≠
      PyError.valueError "Invalid email provider not-a-real-provider" :=
  ⟨by decide, by decide⟩

/-- C1 (amended): provided renderer construction succeeds (the
`EMAIL_TEMPLATE_DIR` value, when present, is non-empty), a configuration
whose lower-cased `EMAIL_PROVIDER` value is not a registry key fails with
`ValueError` (`UnknownProvider`) carrying the offending name, and every
registered name yields a service whose `get_provider()` is the matching
variant. -/
theorem C1_amended (w : World) (inits : TransportInits) (config : Config) (v : String)
    (hv : config.get? "EMAIL_PROVIDER" = some v)
    (htd : config.get? "EMAIL_TEMPLATE_DIR" ≠ some "") :
    (strLower v ∉ providerNames →
      EmailService.init w inits config =
        .error (.valueError ("Invalid email provider " ++ strLower v))) ∧
    (strLower v ∈ providerNames →
      ∃ svc w', EmailService.init w inits config = .ok (svc, w') ∧
        svc.get_provider.variantName = strLower v) := by
  obtain ⟨tr, w', hok⟩ := srcFromConfig_ok w config htd
  constructor
  · intro hnot
    have hl : lookupProvider (strLower v) inits config = none :=
      (lookupProvider_eq_none_iff _ _ _).mpr hnot
    simp only [EmailService.init, hok, hv, hl]
  · intro hmem
    simp only [providerNames, List.mem_cons, List.not_mem_nil, or_false] at hmem
    rcases hmem with h1 | h1 | h1 | h1
    · refine ⟨⟨tr, .azure (AzureEmailProvider.from_config config inits.azureOk)⟩, w', ?_, ?_⟩
      · simp only [EmailService.init, hok, hv, h1]; rfl
      · simp only [EmailService.get_provider, ProviderInstance.variantName, h1]
    · refine ⟨⟨tr, .sendgrid (SendGridEmailProvider.from_config config inits.sendgridOk)⟩,
        w', ?_, ?_⟩
      · simp only [EmailService.init, hok, hv, h1]; rfl
      · simp only [EmailService.get_provider, ProviderInstance.variantName, h1]
    · refine ⟨⟨tr, .aws (AWSEmailProvider.from_config config inits.awsOk)⟩, w', ?_, ?_⟩
      · simp only [EmailService.init, hok, hv, h1]; rfl
      · simp only [EmailService.get_provider, ProviderInstance.variantName, h1]
    · refine ⟨⟨tr, .gcp (GCPEmailProvider.from_config config inits.gcpOk)⟩, w', ?_, ?_⟩
      · simp only [EmailService.init, hok, hv, h1]; rfl
      · simp only [EmailService.get_provider, ProviderInstance.variantName, h1]

/-- Witness for C1 (amended): the upper-case registered name `GCP` yields a
service whose provider is the gcp variant. -/
theorem C1_amended_witness :
    ∃ svc w', EmailService.init w₀ initsOk ([("EMAIL_PROVIDER", "GCP")] : Config) =
      .ok (svc, w') ∧ svc.get_provider.variantName = strLower "GCP" :=
  (C1_amended w₀ initsOk ([("EMAIL_PROVIDER", "GCP")] : Config) "GCP"
    (by decide) (by decide)).2 (by decide)

/-! ## Claim C8 -/

def cfgC8 : Config := [("EMAIL_TEMPLATE_DIR", "")]

/-- C8 counterexample: a configuration lacking `EMAIL_PROVIDER` but carrying
an empty `EMAIL_TEMPLATE_DIR` fails in renderer construction with a
different `AttributeError` than the missing-key failure (the code's
stand-in for `ConfigurationError`), so the claim's "fails with
ConfigurationError" does not hold for every such configuration. -/
theorem C8_counterexample :
    EmailService.init w₀ initsOk cfgC8 =
      .error (.attributeError "str object has no attribute mkdir") ∧
    PyError.attributeError "str object has no attribute mkdir" ≠
      PyError.attributeError "NoneType object has no attribute lower" :=
  ⟨by decide, by decide⟩

/-- C8 (amended): for every configuration lacking `EMAIL_PROVIDER` whose
`EMAIL_TEMPLATE_DIR` value, when present, is non-empty, construction fails
immediately with the missing-key failure — `AttributeError` on
`None.lower()`, the code's realization of `ConfigurationError` — and no
service is returned. -/
theorem C8_amended (w : World) (inits : TransportInits) (config : Config)
    (hmiss : config.get? "EMAIL_PROVIDER" = none)
    (htd : config.get? "EMAIL_TEMPLATE_DIR" ≠ some "") :
    EmailService.init w inits config =
      .error (.attributeError "NoneType object has no attribute lower") := by
  obtain ⟨tr, w', hok⟩ := srcFromConfig_ok w config htd
  simp only [EmailService.init, hok, hmiss]

/-- Witness for C8 (amended): the empty configuration fails with the
missing-key failure. -/
theorem C8_amended_witness :
    EmailService.init w₀ initsOk ([] : Config) =
      .error (.attributeError "NoneType object has no attribute lower") :=
  C8_amended w₀ initsOk ([] : Config) (by decide) (by decide)

/-! ## Claim C2 -/

/-- C2: every `SendResult` a `send_email` returns on a non-throwing
transport completion has a status from the closed set
`{sent, published, failed}`: exactly `"published"` for the pub/sub relay
variant, `"sent"` for AWS SES and Azure, and for SendGrid `"sent"` on a
2xx `status_code` and `"failed"` otherwise — never any other string. -/
theorem C2_status_closed_set :
    (∀ (p : GCPEmailProvider) (te : List String) (su ht : String)
      (cc bcc : Option (List String)) (atts : Option (List Attachment))
      (tr : GCPTransport) (res : SendResult) (calls : List (String × GCPEmailMessage)),
      p.send_email te su ht cc bcc atts tr = (.ok res, calls) →
      res.status = "published") ∧
    (∀ (p : AWSEmailProvider) (te : List String) (su ht : String)
      (cc bcc : Option (List String)) (atts : Option (List Attachment))
      (tr : AWSTransport) (res : SendResult) (calls : List AWSEmailParams),
      p.send_email te su ht cc bcc atts tr = (.ok res, calls) →
      res.status = "sent") ∧
    (∀ (p : AzureEmailProvider) (te : List String) (su ht : String)
      (cc bcc : Option (List String)) (atts : Option (List Attachment))
      (tr : AzureTransport) (res : SendResult) (calls : List AzureMessage),
      p.send_email te su ht cc bcc atts tr = (.ok res, calls) →
      res.status = "sent") ∧
    (∀ (p : SendGridEmailProvider) (te : List String) (su ht : String)
      (cc bcc : Option (List String)) (atts : Option (List Attachment))
      (code : Nat) (mid : Option String) (res : SendResult) (calls : List SGMail),
      p.send_email te su ht cc bcc atts (.response code mid) = (.ok res, calls) →
      res.status = (if 200 ≤ code && code < 300 then "sent" else "failed")) ∧
    (∀ (p : SendGridEmailProvider) (te : List String) (su ht : String)
      (cc bcc : Option (List String)) (atts : Option (List Attachment))
      (tr : SGTransport) (res : SendResult) (calls : List SGMail),
      p.send_email te su ht cc bcc atts tr = (.ok res, calls) →
      res.status = "sent" ∨ res.status = "failed") := by
  refine ⟨?_, ?_, ?_, ?_, ?_⟩
  · rintro ⟨pid, top, se, tp, pi⟩ te su ht cc bcc atts tr res calls h
    cases pi with
    | false => simp [GCPEmailProvider.send_email] at h
    | true =>
      cases tr with
      | ok mid =>
        simp only [GCPEmailProvider.send_email, Bool.not_true, Bool.false_eq_true,
          if_false, Prod.mk.injEq, Except.ok.injEq] at h
        rw [← h.1]
      | exc m => simp [GCPEmailProvider.send_email] at h
  · rintro ⟨se, ci⟩ te su ht cc bcc atts tr res calls h
    cases ci with
    | false => simp [AWSEmailProvider.send_email] at h
    | true =>
      cases tr with
      | ok mid =>
        simp only [AWSEmailProvider.send_email, Bool.not_true, Bool.false_eq_true,
          if_false, Prod.mk.injEq, Except.ok.injEq] at h
        rw [← h.1]
      | clientError c m => simp [AWSEmailProvider.send_email] at h
      | exc m => simp [AWSEmailProvider.send_email] at h
  · rintro ⟨cs, sa, ci⟩ te su ht cc bcc atts tr res calls h
    cases ci with
    | false => simp [AzureEmailProvider.send_email] at h
    | true =>
      cases tr with
      | ok mid =>
        simp only [AzureEmailProvider.send_email, Bool.not_true, Bool.false_eq_true,
          if_false, Prod.mk.injEq, Except.ok.injEq] at h
        rw [← h.1]
      | exc m => simp [AzureEmailProvider.send_email] at h
  · rintro ⟨ak, se, ci⟩ te su ht cc bcc atts code mid res calls h
    cases ci with
    | false => simp [SendGridEmailProvider.send_email] at h
    | true =>
      simp only [SendGridEmailProvider.send_email, Bool.not_true, Bool.false_eq_true,
        if_false] at h
      cases hA : (match truthyList atts with
        | none => Except.ok ([] : List SGAttachment)
        | some l => buildSGAttachments l) with
      | error e =>
        rw [hA] at h
        cases e <;> simp at h
      | ok built =>
        rw [hA] at h
        simp only [Prod.mk.injEq, Except.ok.injEq] at h
        rw [← h.1]
  · rintro ⟨ak, se, ci⟩ te su ht cc bcc atts tr res calls h
    cases ci with
    | false => simp [SendGridEmailProvider.send_email] at h
    | true =>
      simp only [SendGridEmailProvider.send_email, Bool.not_true, Bool.false_eq_true,
        if_false] at h
      cases hA : (match truthyList atts with
        | none => Except.ok ([] : List SGAttachment)
        | some l => buildSGAttachments l) with
      | error e =>
        rw [hA] at h
        cases e <;> simp at h
      | ok built =>
        rw [hA] at h
        cases tr with
        | response code mid =>
          simp only [Prod.mk.injEq, Except.ok.injEq] at h
          rw [← h.1]
          by_cases hc : (200 ≤ code && code < 300) = true
          · left; simp [hc]
          · right; simp [hc]
        | httpError m => simp at h
        | exc m => simp at h

/-- Witness for C2: a concrete successful publish returns status
`"published"`. -/
theorem C2_witness : (SendResult.mk "m" "published").status = "published" := by
  exact C2_status_closed_set.1 (GCPEmailProvider.init "" "" "" true) [] "" "" none none none
    (.ok "m") _ _ rfl

/-! ## Claim C3 -/

/-- C3 counterexample: on a provider whose transport never initialised,
`send_template_email` with a missing template fails with the 404
`TemplateNotFound` failure — not `ProviderUnavailable`
(`HTTPException(500, "Email service is not available")`) — because the
template is rendered before the availability check (no transport call is
made either way, the payload list is empty). -/
theorem C3_counterexample :
    (GCPEmailProvider.init "pid" "top" "s@x.com" false).send_template_email
        (fun n d => (TemplateRenderer.render_template w₀ r₀ n d).1)
        ["a@b.c"] "missing" [] none none none (.ok "mid1") =
      (.error (.httpException 404
        "Template missing not found at /app/templates/emails/missing.html"), []) ∧
    PyError.httpException 404 "Template missing not found at /app/templates/emails/missing.html" ≠
      PyError.httpException 500 "Email service is not available" :=
  ⟨by decide, by decide⟩

/-- C3 (amended): transport-client construction failures are recorded, not
propagated (`from_config` is total and stores the outcome); on such a
provider every `send_email` call fails fast with `ProviderUnavailable`
(`HTTPException(500, "Email service is not available")`) with no transport
call, and every `send_template_email` call renders the template first —
still making no transport call — failing with `ProviderUnavailable` when
rendering succeeds and with the renderer's own error otherwise. -/
theorem C3_amended :
    (∀ (config : Config) (b : Bool),
      (AWSEmailProvider.from_config config b).clientInit = b ∧
      (AzureEmailProvider.from_config config b).clientInit = b ∧
      (SendGridEmailProvider.from_config config b).clientInit = b ∧
      (GCPEmailProvider.from_config config b).publisherInit = b) ∧
    (∀ (p : AWSEmailProvider) (te : List String) (su ht : String)
      (cc bcc : Option (List String)) (atts : Option (List Attachment)) (tr : AWSTransport),
      p.clientInit = false →
      p.send_email te su ht cc bcc atts tr =
        (.error (.httpException 500 "Email service is not available"), [])) ∧
    (∀ (p : AzureEmailProvider) (te : List String) (su ht : String)
      (cc bcc : Option (List String)) (atts : Option (List Attachment)) (tr : AzureTransport),
      p.clientInit = false →
      p.send_email te su ht cc bcc atts tr =
        (.error (.httpException 500 "Email service is not available"), [])) ∧
    (∀ (p : SendGridEmailProvider) (te : List String) (su ht : String)
      (cc bcc : Option (List String)) (atts : Option (List Attachment)) (tr : SGTransport),
      p.clientInit = false →
      p.send_email te su ht cc bcc atts tr =
        (.error (.httpException 500 "Email service is not available"), [])) ∧
    (∀ (p : GCPEmailProvider) (te : List String) (su ht : String)
      (cc bcc : Option (List String)) (atts : Option (List Attachment)) (tr : GCPTransport),
      p.publisherInit = false →
      p.send_email te su ht cc bcc atts tr =
        (.error (.httpException 500 "Email service is not available"), [])) ∧
    (∀ (p : AWSEmailProvider) (render : RenderFun) (te : List String) (nm : String)
      (td : TemplateData) (subj : Option String) (cc bcc : Option (List String))
      (tr : AWSTransport),
      p.clientInit = false →
      p.send_template_email render te nm td subj cc bcc tr =
        (match render nm td with
         | .error e => (.error e, [])
         | .ok _ => (.error (.httpException 500 "Email service is not available"), []))) ∧
    (∀ (p : AzureEmailProvider) (render : RenderFun) (te : List String) (nm : String)
      (td : TemplateData) (subj : Option String) (cc bcc : Option (List String))
      (tr : AzureTransport),
      p.clientInit = false →
      p.send_template_email render te nm td subj cc bcc tr =
        (match render nm td with
         | .error e => (.error e, [])
         | .ok _ => (.error (.httpException 500 "Email service is not available"), []))) ∧
    (∀ (p : SendGridEmailProvider) (render : RenderFun) (te : List String) (nm : String)
      (td : TemplateData) (subj : Option String) (cc bcc : Option (List String))
      (tr : SGTransport),
      p.clientInit = false →
      p.send_template_email render te nm td subj cc bcc tr =
        (match render nm td with
         | .error e => (.error e, [])
         | .ok _ => (.error (.httpException 500 "Email service is not available"), []))) ∧
    (∀ (p : GCPEmailProvider) (render : RenderFun) (te : List String) (nm : String)
      (td : TemplateData) (subj : Option String) (cc bcc : Option (List String))
      (tr : GCPTransport),
      p.publisherInit = false →
      p.send_template_email render te nm td subj cc bcc tr =
        (match render nm td with
         | .error e => (.error e, [])
         | .ok _ => (.error (.httpException 500 "Email service is not available"), []))) := by
  refine ⟨?_, ?_, ?_, ?_, ?_, ?_, ?_, ?_, ?_⟩
  · intro config b
    exact ⟨rfl, rfl, rfl, rfl⟩
  · rintro ⟨se, ci⟩ te su ht cc bcc atts tr h
    cases h; rfl
  · rintro ⟨cs, sa, ci⟩ te su ht cc bcc atts tr h
    cases h; rfl
  · rintro ⟨ak, se, ci⟩ te su ht cc bcc atts tr h
    cases h; rfl
  · rintro ⟨pid, top, se, tp, pi⟩ te su ht cc bcc atts tr h
    cases h; rfl
  · rintro ⟨se, ci⟩ render te nm td subj cc bcc tr h
    cases h
    cases hr : render nm td <;>
      simp [AWSEmailProvider.send_template_email, AWSEmailProvider.send_email, hr]
  · rintro ⟨cs, sa, ci⟩ render te nm td subj cc bcc tr h
    cases h
    cases hr : render nm td <;>
      simp [AzureEmailProvider.send_template_email, AzureEmailProvider.send_email, hr]
  · rintro ⟨ak, se, ci⟩ render te nm td subj cc bcc tr h
    cases h
    cases hr : render nm td <;>
      simp [SendGridEmailProvider.send_template_email, SendGridEmailProvider.send_email, hr]
  · rintro ⟨pid, top, se, tp, pi⟩ render te nm td subj cc bcc tr h
    cases h
    cases hr : render nm td <;>
      simp [GCPEmailProvider.send_template_email, GCPEmailProvider.send_email, hr]

/-- Witness for C3 (amended): a concrete never-initialised AWS provider
fails fast with the `ProviderUnavailable` failure and no transport call. -/
theorem C3_amended_witness :
    (AWSEmailProvider.from_config ([] : Config) false).send_email
        ["a@b.c"] "s" "h" none none none (.ok "m") =
      (.error (.httpException 500 "Email service is not available"), []) :=
  C3_amended.2.1 (AWSEmailProvider.from_config ([] : Config) false)
    ["a@b.c"] "s" "h" none none none (.ok "m") rfl

/-! ## Claim C4 -/

def attA : Attachment :=
  { filename := some "f.txt", content := some (.bytes [104, 105]),
    content_type := some "text/plain" }

/-- C4 counterexample: the pub/sub relay variant does not drop a supplied
attachment — the published message *includes* it (base-64-encoded), so the
claim that the resulting published message omits the attachment data is
false at this concrete call. -/
theorem C4_counterexample :
    (GCPEmailProvider.init "pid" "top" "s@x.com" true).send_email ["a@b.c"] "Subj"
        "<p>hi</p>" none none (some [attA]) (.ok "mid1") =
      (.ok { message_id := "mid1", status := "published" },
       [("projects/pid/topics/top",
         { fromAddr := "s@x.com", toAddrs := ["a@b.c"], subject := "Subj",
           html_content := "<p>hi</p>", cc := none, bcc := none,
           attachments := some [{ filename := "f.txt", content := "aGk=",
                                  content_type := "text/plain", is_base64 := true }] })]) ∧
    some [({ filename := "f.txt", content := "aGk=", content_type := "text/plain",
             is_base64 := true } : SerializedAttachment)] ≠
      (none : Option (List SerializedAttachment)) :=
  ⟨by decide, by decide⟩

/-- C4 (amended): a `send_email` call on the pub/sub relay variant with
attachments supplied does not error on account of the attachments: bytes
content is base-64-encoded and the serialized attachments are *included*
in the published message (the variant that drops attachments with a
logged warning is the SES one, whose payload carries no attachment
field). -/
theorem C4_amended (p : GCPEmailProvider) (hp : p.publisherInit = true)
    (te : List String) (su ht : String) (cc bcc : Option (List String))
    (atts : List Attachment) (hne : atts ≠ []) (mid : String) :
    p.send_email te su ht cc bcc (some atts) (.ok mid) =
      (.ok { message_id := mid, status := "published" },
       [(p.topic_path,
         { fromAddr := p.sender_email, toAddrs := te, subject := su, html_content := ht,
           cc := truthyList cc, bcc := truthyList bcc,
           attachments := some (atts.map serializeAttachment) })]) := by
  have hi : atts.isEmpty = false := by
    cases atts with
    | nil => exact absurd rfl hne
    | cons a l => rfl
  unfold GCPEmailProvider.send_email
  rw [hp]
  simp [truthyList, hi]

/-- Witness for C4 (amended): the concrete attachment is serialized and
included. -/
theorem C4_amended_witness :
    (GCPEmailProvider.init "pid2" "top2" "s@x.com" true).send_email ["b@c.d"] "S2" "H2"
        none none (some [attA]) (.ok "mid2") =
      (.ok { message_id := "mid2", status := "published" },
       [((GCPEmailProvider.init "pid2" "top2" "s@x.com" true).topic_path,
         { fromAddr := (GCPEmailProvider.init "pid2" "top2" "s@x.com" true).sender_email,
           toAddrs := ["b@c.d"], subject := "S2", html_content := "H2",
           cc := truthyList none, bcc := truthyList none,
           attachments := some ([attA].map serializeAttachment) })]) :=
  C4_amended (GCPEmailProvider.init "pid2" "top2" "s@x.com" true) rfl
    ["b@c.d"] "S2" "H2" none none [attA] (by decide) "mid2"

/-! ## Claim C10 -/

/-- C10: `send_template_email` never forwards attachments: it takes no
attachments parameter and calls `send_email` with none, so every payload a
templated send hands to a transport carries no attachment data — the
pub/sub message's and the Azure message's `attachments` entry is absent
and the SendGrid mail's attachment list is empty — even though each
variant's `send_email` supports attachments. -/
theorem C10_no_attachment_forwarding :
    (∀ (p : GCPEmailProvider) (render : RenderFun) (te : List String) (nm : String)
      (td : TemplateData) (subj : Option String) (cc bcc : Option (List String))
      (tr : GCPTransport) (x : String × GCPEmailMessage),
      x ∈ (p.send_template_email render te nm td subj cc bcc tr).2 →
      x.2.attachments = none) ∧
    (∀ (p : AzureEmailProvider) (render : RenderFun) (te : List String) (nm : String)
      (td : TemplateData) (subj : Option String) (cc bcc : Option (List String))
      (tr : AzureTransport) (m : AzureMessage),
      m ∈ (p.send_template_email render te nm td subj cc bcc tr).2 →
      m.attachments = none) ∧
    (∀ (p : SendGridEmailProvider) (render : RenderFun) (te : List String) (nm : String)
      (td : TemplateData) (subj : Option String) (cc bcc : Option (List String))
      (tr : SGTransport) (m : SGMail),
      m ∈ (p.send_template_email render te nm td subj cc bcc tr).2 →
      m.attachments = []) ∧
    (∀ (p : AWSEmailProvider) (render : RenderFun) (te : List String) (nm : String)
      (td : TemplateData) (subj : Option String) (cc bcc : Option (List String))
      (tr : AWSTransport),
      p.send_template_email render te nm td subj cc bcc tr =
        (match render nm td with
         | .error e => (.error e, [])
         | .ok html =>
           p.send_email te ((truthyStr subj).getD defaultSubject) html cc bcc none tr)) := by
  refine ⟨?_, ?_, ?_, ?_⟩
  · rintro ⟨pid, top, se, tp, pi⟩ render te nm td subj cc bcc tr x hx
    cases hr : render nm td with
    | error e => simp [GCPEmailProvider.send_template_email, hr] at hx
    | ok html =>
      simp only [GCPEmailProvider.send_template_email, hr] at hx
      cases pi with
      | false => simp [GCPEmailProvider.send_email] at hx
      | true =>
        cases tr with
        | ok mid =>
          simp [GCPEmailProvider.send_email] at hx
          subst hx
          simp [truthyList]
        | exc m =>
          simp [GCPEmailProvider.send_email] at hx
          subst hx
          simp [truthyList]
  · rintro ⟨cs, sa, ci⟩ render te nm td subj cc bcc tr m hm
    cases hr : render nm td with
    | error e => simp [AzureEmailProvider.send_template_email, hr] at hm
    | ok html =>
      simp only [AzureEmailProvider.send_template_email, hr] at hm
      cases ci with
      | false => simp [AzureEmailProvider.send_email] at hm
      | true =>
        cases tr with
        | ok mid =>
          simp [AzureEmailProvider.send_email] at hm
          subst hm
          simp [truthyList]
        | exc ms =>
          simp [AzureEmailProvider.send_email] at hm
          subst hm
          simp [truthyList]
  · rintro ⟨ak, se, ci⟩ render te nm td subj cc bcc tr m hm
    cases hr : render nm td with
    | error e => simp [SendGridEmailProvider.send_template_email, hr] at hm
    | ok html =>
      simp only [SendGridEmailProvider.send_template_email, hr] at hm
      cases ci with
      | false => simp [SendGridEmailProvider.send_email] at hm
      | true =>
        cases tr with
        | response code mid =>
          simp [SendGridEmailProvider.send_email, truthyList] at hm
          subst hm
          rfl
        | httpError ms =>
          simp [SendGridEmailProvider.send_email, truthyList] at hm
          subst hm
          rfl
        | exc ms =>
          simp [SendGridEmailProvider.send_email, truthyList] at hm
          subst hm
          rfl
  · rintro ⟨se, ci⟩ render te nm td subj cc bcc tr
    cases hr : render nm td <;>
      simp [AWSEmailProvider.send_template_email, hr]

/-- Witness for C10: a concrete templated pub/sub send publishes a message
whose `attachments` entry is absent. -/
theorem C10_witness :
    (("projects/pid/topics/top",
      ({ fromAddr := "s@x.com", toAddrs := ["a@b.c"], subject := "Default subject",
         html_content := "Hello ", cc := none, bcc := none, attachments := none } :
        GCPEmailMessage)) : String × GCPEmailMessage).2.attachments = none :=
  C10_no_attachment_forwarding.1 (GCPEmailProvider.init "pid" "top" "s@x.com" true)
    (fun n d => (TemplateRenderer.render_template w₀ r₀ n d).1)
    ["a@b.c"] "test" [] none none none (.ok "mid1")
    ("projects/pid/topics/top",
      { fromAddr := "s@x.com", toAddrs := ["a@b.c"], subject := "Default subject",
        html_content := "Hello ", cc := none, bcc := none, attachments := none })
    (by decide)

end MailDispatch
